import Mathlib

/-!
Verification of `src/nexushub/krunclient/main.c` (the VM launch pipeline).

The program is embedded shallowly:

* `buildPortMapping` models `snprintf(port_mapping, 32, "%s:80", argv[2])`:
  the formatted string `<port>:80` truncated to at most 31 characters
  (one byte of the 32-byte buffer is reserved for the terminator).
* `hostMatch` / `secretMatch` model `strncmp(e, "HOST=", 5) == 0` and
  `strncmp(e, "INTERNAL_SECRET=", 16) == 0`.
* `updateSlots` models one iteration of the environment-filtering loop
  (lines 24-33), which overwrites slot 0 on a `HOST=` match and slot 1 on
  an `INTERNAL_SECRET=` match; `filterEnv` folds it over the whole host
  environment starting from the defaults `{"HOST=", "INTERNAL_SECRET="}`.
* `KrunCall` records each libkrun call with its arguments; `Krun` is an
  oracle giving the value each libkrun call would return (the C code
  ignores every return value except implicitly `krun_start_enter`, which
  on success never returns).
* `Krunclient.main` is the whole `main` function: it returns the sequence
  of libkrun calls made, the text printed to stderr, and the process
  outcome (exit code, or control transferred into the VM).
-/

namespace Krunclient

/-- Models `strncmp(e, "HOST=", 5) == 0`: the first 5 characters of `e`
equal `HOST=`. -/
def hostMatch (e : String) : Bool :=
  e.toList.take 5 == "HOST=".toList

/-- Models `strncmp(e, "INTERNAL_SECRET=", 16) == 0`: the first 16
characters of `e` equal `INTERNAL_SECRET=`. -/
def secretMatch (e : String) : Bool :=
  e.toList.take 16 == "INTERNAL_SECRET=".toList

/-- One iteration of the filtering loop (lines 24-33): the pair holds
`envp[0]` and `envp[1]`; a `HOST=` match overwrites the first slot, an
`INTERNAL_SECRET=` match overwrites the second. -/
def updateSlots (p : String × String) (e : String) : String × String :=
  let p1 := if hostMatch e then (e, p.2) else p
  if secretMatch e then (p1.1, e) else p1

/-- The guest environment list (`envp`, lines 19-33): slots start at the
defaults `"HOST="` and `"INTERNAL_SECRET="` and the loop runs over the
whole host environment.  The NULL terminator of the C array is the end of
the Lean list. -/
def filterEnv (environ : List String) : List String :=
  let final := environ.foldl updateSlots ("HOST=", "INTERNAL_SECRET=")
  [final.1, final.2]

/-- Models `snprintf(port_mapping, sizeof(port_mapping), "%s:80", argv[2])`
with `sizeof(port_mapping) = 32`: the formatted text truncated to 31
characters (the 32nd byte holds the terminator). -/
def buildPortMapping (port : String) : String :=
  ⟨(port.toList ++ ":80".toList).take 31⟩

/-- A libkrun runtime call together with its arguments. -/
inductive KrunCall where
  | createCtx : KrunCall
  | setVmConfig : Int → Nat → Nat → KrunCall
  | setRoot : Int → String → KrunCall
  | setPortMap : Int → List String → KrunCall
  | setExec : Int → String → Option (List String) → List String → KrunCall
  | startEnter : Int → KrunCall
deriving DecidableEq, Repr

/-- Oracle giving the result of each libkrun call in this run.
`startEnter = none` means `krun_start_enter` enters the VM and never
returns; `startEnter = some c` means it returns the value `c`. -/
structure Krun where
  createCtx : Int
  setVmConfig : Int
  setRoot : Int
  setPortMap : Int
  setExec : Int
  startEnter : Option Int

/-- How the host process ends: it exits with a status code, or control is
transferred into the VM (`krun_start_enter` never returns). -/
inductive ProcOutcome where
  | exited : Int → ProcOutcome
  | enteredVM : ProcOutcome
deriving DecidableEq, Repr

/-- Observable behaviour of one run of the program. -/
structure RunResult where
  calls : List KrunCall
  stderrOut : List String
  outcome : ProcOutcome
deriving DecidableEq, Repr

/-- The whole `main` of `src/nexushub/krunclient/main.c`, as a function of
the argument vector (`argv`, program name included), the host environment
(`environ`) and the runtime oracle.  No libkrun return value is checked:
every call in lines 35-44 is made unconditionally, and if
`krun_start_enter` returns, `main` falls through to `return 0`. -/
def main (argv environ : List String) (rt : Krun) : RunResult :=
  if argv.length ≠ 3 then
    { calls := []
      stderrOut := ["Usage: " ++ argv.headD "" ++ " <root_path> <local_port>\n"]
      outcome := .exited 1 }
  else
    let port_mapping := buildPortMapping (argv.getD 2 "")
    let port_map := [port_mapping]
    let envp := filterEnv environ
    let ctx_id := rt.createCtx
    { calls := [ .createCtx
               , .setVmConfig ctx_id 1 512
               , .setRoot ctx_id (argv.getD 1 "")
               , .setPortMap ctx_id port_map
               , .setExec ctx_id "/bin/app" none envp
               , .startEnter ctx_id ]
      stderrOut := []
      outcome := match rt.startEnter with
        | none => .enteredVM
        | some _ => .exited 0 }

/-- A runtime oracle for a run where every call succeeds and
`krun_start_enter` never returns. -/
def rtOk : Krun :=
  { createCtx := 0, setVmConfig := 0, setRoot := 0, setPortMap := 0
    setExec := 0, startEnter := none }

/-- A runtime oracle for a run where `krun_set_root` fails (returns
`-22`, i.e. `-EINVAL`) and `krun_start_enter` returns an error. -/
def rtRootFail : Krun :=
  { createCtx := 0, setVmConfig := 0, setRoot := -22, setPortMap := 0
    setExec := 0, startEnter := some (-9) }

/-- A runtime oracle for a run where everything up to `krun_start_enter`
succeeds but the start call returns an error instead of entering the VM. -/
def rtStartFail : Krun :=
  { createCtx := 0, setVmConfig := 0, setRoot := 0, setPortMap := 0
    setExec := 0, startEnter := some (-9) }

theorem updateSlots_fst (p : String × String) (e : String) :
    (updateSlots p e).1 = if hostMatch e then e else p.1 := by
  unfold updateSlots
  by_cases h1 : hostMatch e = true <;> by_cases h2 : secretMatch e = true <;>
    simp [h1, h2]

theorem updateSlots_snd (p : String × String) (e : String) :
    (updateSlots p e).2 = if secretMatch e then e else p.2 := by
  unfold updateSlots
  by_cases h1 : hostMatch e = true <;> by_cases h2 : secretMatch e = true <;>
    simp [h1, h2]

theorem foldl_keepIf (q : String → Bool) (l : List String) : ∀ a : String,
    l.foldl (fun a e => if q e then e else a) a = (l.filter q).getLastD a := by
  induction l with
  | nil => intro a; rfl
  | cons x xs ih =>
    intro a
    simp only [List.foldl_cons, List.filter_cons]
    by_cases hx : q x = true
    · rw [if_pos hx, if_pos hx, ih, List.getLastD_cons]
    · rw [if_neg hx, if_neg hx, ih]

theorem foldl_updateSlots_fst (l : List String) : ∀ p : String × String,
    (l.foldl updateSlots p).1 = (l.filter hostMatch).getLastD p.1 := by
  induction l with
  | nil => intro p; rfl
  | cons x xs ih =>
    intro p
    simp only [List.foldl_cons, List.filter_cons, ih, updateSlots_fst]
    by_cases hx : hostMatch x = true
    · rw [if_pos hx, if_pos hx, List.getLastD_cons]
    · rw [if_neg hx, if_neg hx]

theorem foldl_updateSlots_snd (l : List String) : ∀ p : String × String,
    (l.foldl updateSlots p).2 = (l.filter secretMatch).getLastD p.2 := by
  induction l with
  | nil => intro p; rfl
  | cons x xs ih =>
    intro p
    simp only [List.foldl_cons, List.filter_cons, ih, updateSlots_snd]
    by_cases hx : secretMatch x = true
    · rw [if_pos hx, if_pos hx, List.getLastD_cons]
    · rw [if_neg hx, if_neg hx]

/-- Closed form of the filtering loop: each guest-environment slot holds
the last matching host entry, or the empty-valued default when no host
entry matches. -/
theorem filterEnv_eq (environ : List String) :
    filterEnv environ =
      [(environ.filter hostMatch).getLastD "HOST=",
       (environ.filter secretMatch).getLastD "INTERNAL_SECRET="] := by
  simp only [filterEnv, foldl_updateSlots_fst, foldl_updateSlots_snd]

theorem getLastD_mem_cons (l : List String) : ∀ a : String,
    l.getLastD a ∈ a :: l := by
  induction l with
  | nil => intro a; simp [List.getLastD_nil]
  | cons x xs ih =>
    intro a
    rw [List.getLastD_cons]
    exact List.mem_cons_of_mem a (ih x)

theorem hostSlot_matches (environ : List String) :
    hostMatch ((environ.filter hostMatch).getLastD "HOST=") = true := by
  rcases List.mem_cons.mp (getLastD_mem_cons (environ.filter hostMatch) "HOST=")
    with h | h
  · rw [h]; decide
  · exact (List.mem_filter.mp h).2

theorem secretSlot_matches (environ : List String) :
    secretMatch ((environ.filter secretMatch).getLastD "INTERNAL_SECRET=") = true := by
  rcases List.mem_cons.mp
    (getLastD_mem_cons (environ.filter secretMatch) "INTERNAL_SECRET=") with h | h
  · rw [h]; decide
  · exact (List.mem_filter.mp h).2

/-- With three arguments (program name included), `main` makes exactly the
six libkrun calls of lines 35-44, in source order. -/
theorem main_calls (argv environ : List String) (rt : Krun)
    (h : argv.length = 3) :
    (main argv environ rt).calls =
      [ KrunCall.createCtx
      , KrunCall.setVmConfig rt.createCtx 1 512
      , KrunCall.setRoot rt.createCtx (argv.getD 1 "")
      , KrunCall.setPortMap rt.createCtx [buildPortMapping (argv.getD 2 "")]
      , KrunCall.setExec rt.createCtx "/bin/app" none (filterEnv environ)
      , KrunCall.startEnter rt.createCtx ] := by
  unfold main
  rw [if_neg (not_not_intro h)]

/-- With a wrong argument count, `main` prints the usage line to stderr,
returns 1, and makes no libkrun call. -/
theorem main_usage (argv environ : List String) (rt : Krun)
    (h : argv.length ≠ 3) :
    (main argv environ rt).calls = [] ∧
    (main argv environ rt).stderrOut =
      ["Usage: " ++ argv.headD "" ++ " <root_path> <local_port>\n"] ∧
    (main argv environ rt).outcome = ProcOutcome.exited 1 := by
  unfold main
  rw [if_pos h]
  exact ⟨rfl, rfl, rfl⟩

/-- If `krun_start_enter` returns (with any value), `main` falls through
to `return 0`. -/
theorem main_outcome_of_start_returns (argv environ : List String)
    (rt : Krun) (c : Int) (h : argv.length = 3) (hs : rt.startEnter = some c) :
    (main argv environ rt).outcome = ProcOutcome.exited 0 := by
  unfold main
  rw [if_neg (not_not_intro h)]
  show (match rt.startEnter with
        | none => ProcOutcome.enteredVM
        | some _ => ProcOutcome.exited 0) = ProcOutcome.exited 0
  rw [hs]

/-- If `krun_start_enter` never returns, the process never exits: control
is inside the VM. -/
theorem main_outcome_of_start_enters (argv environ : List String)
    (rt : Krun) (h : argv.length = 3) (hs : rt.startEnter = none) :
    (main argv environ rt).outcome = ProcOutcome.enteredVM := by
  unfold main
  rw [if_neg (not_not_intro h)]
  show (match rt.startEnter with
        | none => ProcOutcome.enteredVM
        | some _ => ProcOutcome.exited 0) = ProcOutcome.enteredVM
  rw [hs]

/-- C1: every entry of the guest environment list passed to the
exec-configuration call (`krun_set_exec`) has key `HOST` or key
`INTERNAL_SECRET` (its first characters are `HOST=` or
`INTERNAL_SECRET=`); no other host environment variable is ever
forwarded into the guest. -/
theorem claim_C1 (argv environ : List String) (rt : Krun) (ctx : Int)
    (path : String) (args : Option (List String)) (el : List String)
    (hmem : KrunCall.setExec ctx path args el ∈ (main argv environ rt).calls)
    (e : String) (he : e ∈ el) :
    hostMatch e = true ∨ secretMatch e = true := by
  by_cases h : argv.length = 3
  · rw [main_calls argv environ rt h] at hmem
    simp only [List.mem_cons, List.not_mem_nil, or_false] at hmem
    rcases hmem with h1 | h1 | h1 | h1 | h1 | h1
    · exact absurd h1 (by simp)
    · exact absurd h1 (by simp)
    · exact absurd h1 (by simp)
    · exact absurd h1 (by simp)
    · injection h1 with h2 h3 h4 h5
      rw [h5, filterEnv_eq] at he
      simp only [List.mem_cons, List.not_mem_nil, or_false] at he
      rcases he with he | he
      · exact Or.inl (he ▸ hostSlot_matches environ)
      · exact Or.inr (he ▸ secretSlot_matches environ)
    · exact absurd h1 (by simp)
  · rw [(main_usage argv environ rt h).1] at hmem
    exact absurd hmem (List.not_mem_nil _)

/-- C1 witness: in a concrete run the exec-configuration call receives
the list `filterEnv ["PATH=/usr/bin"]`, and its entry `HOST=` has key
`HOST`. -/
theorem claim_C1_witness :
    hostMatch "HOST=" = true ∨ secretMatch "HOST=" = true :=
  claim_C1 ["krunclient", "/var/vm-root", "8080"] ["PATH=/usr/bin"] rtOk
    rtOk.createCtx "/bin/app" none (filterEnv ["PATH=/usr/bin"])
    (by decide) "HOST=" (by decide)

/-- C2: on every run with exactly two positional arguments the runtime
calls occur each exactly once, strictly in the order create-context,
set-resources (1 vCPU, 512 MiB), set-root (first argument), set-port-map
(single-entry map), set-exec (`/bin/app`, no arguments), start. -/
theorem claim_C2 (argv environ : List String) (rt : Krun)
    (h : argv.length = 3) :
    (main argv environ rt).calls =
      [ KrunCall.createCtx
      , KrunCall.setVmConfig rt.createCtx 1 512
      , KrunCall.setRoot rt.createCtx (argv.getD 1 "")
      , KrunCall.setPortMap rt.createCtx [buildPortMapping (argv.getD 2 "")]
      , KrunCall.setExec rt.createCtx "/bin/app" none (filterEnv environ)
      , KrunCall.startEnter rt.createCtx ] :=
  main_calls argv environ rt h

/-- C2 witness: the call sequence of a concrete successful run, fully
evaluated. -/
theorem claim_C2_witness :
    (main ["krunclient", "/var/vm-root", "8080"] ["HOST=10.0.0.5"] rtOk).calls =
      [ KrunCall.createCtx
      , KrunCall.setVmConfig 0 1 512
      , KrunCall.setRoot 0 "/var/vm-root"
      , KrunCall.setPortMap 0 ["8080:80"]
      , KrunCall.setExec 0 "/bin/app" none ["HOST=10.0.0.5", "INTERNAL_SECRET="]
      , KrunCall.startEnter 0 ] :=
  (claim_C2 ["krunclient", "/var/vm-root", "8080"] ["HOST=10.0.0.5"] rtOk
    (by decide)).trans (by decide)

/-- C3 counterexample: a concrete run in which `krun_set_root` fails
(returns -22), yet the subsequent set-port-map, set-exec and start calls
are all still made and the process exits with status 0 — refuting the
claim that a set-root failure suppresses the later calls and forces a
non-zero exit. -/
theorem claim_C3_counterexample :
    rtRootFail.setRoot < 0 ∧
    KrunCall.setPortMap rtRootFail.createCtx [buildPortMapping "8080"] ∈
      (main ["krunclient", "/var/vm-root", "8080"] ["HOST=10.0.0.5"] rtRootFail).calls ∧
    KrunCall.setExec rtRootFail.createCtx "/bin/app" none
        (filterEnv ["HOST=10.0.0.5"]) ∈
      (main ["krunclient", "/var/vm-root", "8080"] ["HOST=10.0.0.5"] rtRootFail).calls ∧
    KrunCall.startEnter rtRootFail.createCtx ∈
      (main ["krunclient", "/var/vm-root", "8080"] ["HOST=10.0.0.5"] rtRootFail).calls ∧
    (main ["krunclient", "/var/vm-root", "8080"] ["HOST=10.0.0.5"] rtRootFail).outcome =
      ProcOutcome.exited 0 := by
  decide

/-- C3 (amended): a failing set-root call does not abort the pipeline —
no libkrun return value is checked, so set-port-map, set-exec and start
are still performed, and whenever start returns the process exits with
status 0 (the only run that does not exit is one whose start call never
returns). -/
theorem claim_C3_amended (argv environ : List String) (rt : Krun)
    (h : argv.length = 3) (_hroot : rt.setRoot < 0) :
    KrunCall.setPortMap rt.createCtx [buildPortMapping (argv.getD 2 "")] ∈
      (main argv environ rt).calls ∧
    KrunCall.setExec rt.createCtx "/bin/app" none (filterEnv environ) ∈
      (main argv environ rt).calls ∧
    KrunCall.startEnter rt.createCtx ∈ (main argv environ rt).calls ∧
    ((main argv environ rt).outcome = ProcOutcome.exited 0 ∨
      rt.startEnter = none) := by
  rw [main_calls argv environ rt h]
  refine ⟨by simp, by simp, by simp, ?_⟩
  cases hs : rt.startEnter with
  | none => exact Or.inr rfl
  | some c => exact Or.inl (main_outcome_of_start_returns argv environ rt c h hs)

/-- C3 witness: the amended statement instantiated at the concrete
failing-set-root run. -/
theorem claim_C3_witness :
    KrunCall.setPortMap rtRootFail.createCtx [buildPortMapping "8080"] ∈
      (main ["krunclient", "/var/vm-root", "8080"] [] rtRootFail).calls ∧
    KrunCall.setExec rtRootFail.createCtx "/bin/app" none (filterEnv []) ∈
      (main ["krunclient", "/var/vm-root", "8080"] [] rtRootFail).calls ∧
    KrunCall.startEnter rtRootFail.createCtx ∈
      (main ["krunclient", "/var/vm-root", "8080"] [] rtRootFail).calls ∧
    ((main ["krunclient", "/var/vm-root", "8080"] [] rtRootFail).outcome =
        ProcOutcome.exited 0 ∨
      rtRootFail.startEnter = none) :=
  claim_C3_amended ["krunclient", "/var/vm-root", "8080"] [] rtRootFail
    (by decide) (by decide)

/-- C4 counterexample: the host environment
`["HOST=1.2.3.4", "PATH=/usr/bin"]` contains `HOST=1.2.3.4` and no
`INTERNAL_SECRET` variable, yet the guest environment list has two
entries, not one: the absent secret becomes the empty-valued placeholder
`INTERNAL_SECRET=`. -/
theorem claim_C4_counterexample :
    "HOST=1.2.3.4" ∈ (["HOST=1.2.3.4", "PATH=/usr/bin"] : List String) ∧
    (["HOST=1.2.3.4", "PATH=/usr/bin"] : List String).all
      (fun e => !(secretMatch e)) = true ∧
    (filterEnv ["HOST=1.2.3.4", "PATH=/usr/bin"]).length ≠ 1 ∧
    filterEnv ["HOST=1.2.3.4", "PATH=/usr/bin"] =
      ["HOST=1.2.3.4", "INTERNAL_SECRET="] := by
  decide

/-- C4 (amended): for a host environment whose last `HOST`-keyed entry is
`HOST=1.2.3.4` and which has no `INTERNAL_SECRET`-keyed entry, the guest
environment list is exactly `["HOST=1.2.3.4", "INTERNAL_SECRET="]`: the
`HOST` value is forwarded verbatim, and the absent secret yields an
empty-valued placeholder entry rather than being omitted. -/
theorem claim_C4_amended (environ : List String)
    (hh : (environ.filter hostMatch).getLast? = some "HOST=1.2.3.4")
    (hs : ∀ e ∈ environ, secretMatch e = false) :
    filterEnv environ = ["HOST=1.2.3.4", "INTERNAL_SECRET="] := by
  rw [filterEnv_eq]
  have h1 : (environ.filter hostMatch).getLastD "HOST=" = "HOST=1.2.3.4" := by
    rw [List.getLastD_eq_getLast?, hh]
    rfl
  have h2 : environ.filter secretMatch = [] := by
    rw [List.filter_eq_nil_iff]
    intro a ha
    simp [hs a ha]
  rw [h1, h2]
  rfl

/-- C4 witness: the amended statement instantiated at the concrete
environment of the counterexample. -/
theorem claim_C4_witness :
    filterEnv ["HOST=1.2.3.4", "PATH=/usr/bin"] =
      ["HOST=1.2.3.4", "INTERNAL_SECRET="] :=
  claim_C4_amended ["HOST=1.2.3.4", "PATH=/usr/bin"] (by decide) (by decide)

/-- C5: with an argument count other than two positional arguments, the
program writes the usage message to stderr, exits with status 1, and
makes no VM-runtime call. -/
theorem claim_C5 (argv environ : List String) (rt : Krun)
    (h : argv.length ≠ 3) :
    (main argv environ rt).calls = [] ∧
    (main argv environ rt).stderrOut =
      ["Usage: " ++ argv.headD "" ++ " <root_path> <local_port>\n"] ∧
    (main argv environ rt).outcome = ProcOutcome.exited 1 :=
  main_usage argv environ rt h

/-- C5 witness: a concrete one-argument run. -/
theorem claim_C5_witness :
    (main ["krunclient", "/var/vm-root"] [] rtOk).calls = [] ∧
    (main ["krunclient", "/var/vm-root"] [] rtOk).stderrOut =
      ["Usage: krunclient <root_path> <local_port>\n"] ∧
    (main ["krunclient", "/var/vm-root"] [] rtOk).outcome =
      ProcOutcome.exited 1 := by
  have h := claim_C5 ["krunclient", "/var/vm-root"] [] rtOk (by decide)
  exact ⟨h.1, h.2.1.trans (by decide), h.2.2⟩

/-- C6 counterexample: a concrete run in which `krun_start_enter` returns
an error (-9) instead of entering the VM, yet the process exits with
status 0 — the exit status is not non-zero, refuting the claim that it
marks the failure. -/
theorem claim_C6_counterexample :
    rtStartFail.startEnter = some (-9) ∧
    (main ["krunclient", "/var/vm-root", "8080"] [] rtStartFail).outcome =
      ProcOutcome.exited 0 := by
  decide

/-- C6 (amended): on a run that reaches the start call, the only possible
exit status is 0 (the value returned by a failing start is discarded by
the fall-through `return 0`); the process produces no exit at all exactly
when start never returns, so a failed start is distinguishable from
success only by the fact that the process exited, not by a non-zero
status. -/
theorem claim_C6_amended (argv environ : List String) (rt : Krun)
    (h : argv.length = 3) :
    ((main argv environ rt).outcome = ProcOutcome.exited 0 ∨
      (main argv environ rt).outcome = ProcOutcome.enteredVM) ∧
    ((main argv environ rt).outcome = ProcOutcome.enteredVM ↔
      rt.startEnter = none) := by
  cases hs : rt.startEnter with
  | none =>
    have h0 := main_outcome_of_start_enters argv environ rt h hs
    rw [h0]
    simp
  | some c =>
    have h0 := main_outcome_of_start_returns argv environ rt c h hs
    rw [h0]
    simp

/-- C6 witness: the amended statement instantiated at the concrete
failing-start run. -/
theorem claim_C6_witness :
    ((main ["krunclient", "/var/vm-root", "8080"] [] rtStartFail).outcome =
        ProcOutcome.exited 0 ∨
      (main ["krunclient", "/var/vm-root", "8080"] [] rtStartFail).outcome =
        ProcOutcome.enteredVM) ∧
    ((main ["krunclient", "/var/vm-root", "8080"] [] rtStartFail).outcome =
        ProcOutcome.enteredVM ↔
      rtStartFail.startEnter = none) :=
  claim_C6_amended ["krunclient", "/var/vm-root", "8080"] [] rtStartFail
    (by decide)

/-- C7: for a host environment whose last `HOST`-keyed entry is
`HOST=1.2.3.4` and whose last `INTERNAL_SECRET`-keyed entry is
`INTERNAL_SECRET=xyz` (last occurrence wins when a key is duplicated),
the guest environment list has exactly two entries whose content,
order-independently, is `{HOST=1.2.3.4, INTERNAL_SECRET=xyz}`. -/
theorem claim_C7 (environ : List String)
    (hh : (environ.filter hostMatch).getLast? = some "HOST=1.2.3.4")
    (hs : (environ.filter secretMatch).getLast? = some "INTERNAL_SECRET=xyz") :
    (filterEnv environ).length = 2 ∧
    (filterEnv environ = ["HOST=1.2.3.4", "INTERNAL_SECRET=xyz"] ∨
      filterEnv environ = ["INTERNAL_SECRET=xyz", "HOST=1.2.3.4"]) := by
  rw [filterEnv_eq, List.getLastD_eq_getLast?, List.getLastD_eq_getLast?, hh, hs]
  exact ⟨rfl, Or.inl rfl⟩

/-- C7 witness: a concrete environment with a duplicated `HOST` key: the
later `HOST=1.2.3.4` wins over the earlier `HOST=9.9.9.9`. -/
theorem claim_C7_witness :
    (filterEnv ["HOST=9.9.9.9", "PATH=/usr/bin", "HOST=1.2.3.4",
        "INTERNAL_SECRET=xyz"]).length = 2 ∧
    (filterEnv ["HOST=9.9.9.9", "PATH=/usr/bin", "HOST=1.2.3.4",
        "INTERNAL_SECRET=xyz"] = ["HOST=1.2.3.4", "INTERNAL_SECRET=xyz"] ∨
      filterEnv ["HOST=9.9.9.9", "PATH=/usr/bin", "HOST=1.2.3.4",
        "INTERNAL_SECRET=xyz"] = ["INTERNAL_SECRET=xyz", "HOST=1.2.3.4"]) :=
  claim_C7 ["HOST=9.9.9.9", "PATH=/usr/bin", "HOST=1.2.3.4",
    "INTERNAL_SECRET=xyz"] (by decide) (by decide)

/-- C8: whenever the formatted text `<port>:80` fits the 32-byte buffer
(at most 31 characters plus the terminator), the derived port-mapping
string is exactly the port text followed by `:80`. -/
theorem claim_C8 (port : String) (h : (port ++ ":80").length ≤ 31) :
    buildPortMapping port = port ++ ":80" := by
  unfold buildPortMapping
  have hd : (port ++ ":80").data = port.toList ++ ":80".toList :=
    String.data_append port ":80"
  have hl : (port.toList ++ ":80".toList).length ≤ 31 := by
    rw [← hd]
    exact h
  rw [List.take_of_length_le hl, ← hd]

/-- C8 witness: for the port text `8080` the mapping is `8080:80`. -/
theorem claim_C8_witness :
    (("8080" : String) ++ ":80").length ≤ 31 ∧
    buildPortMapping "8080" = "8080:80" :=
  ⟨by decide, (claim_C8 "8080" (by decide)).trans (by decide)⟩

/-- C9: for every port argument text, the derived port-mapping string has
at most 31 characters (it never exceeds the 32-byte buffer, whose last
byte holds the terminator) and is exactly the deterministic truncation of
`<port>:80` to 31 characters. -/
theorem claim_C9 (port : String) :
    (buildPortMapping port).length ≤ 31 ∧
    (buildPortMapping port).data = (port ++ ":80").data.take 31 := by
  constructor
  · show ((port.toList ++ ":80".toList).take 31).length ≤ 31
    rw [List.length_take]
    exact min_le_left _ _
  · show (port.toList ++ ":80".toList).take 31 = (port ++ ":80").data.take 31
    rw [String.data_append]
    rfl

/-- C10: for every host environment the guest environment list has
exactly two entries (the NULL terminator being the end of the list), in
the fixed order `HOST` entry first and `INTERNAL_SECRET` entry second; a
key with no matching host entry yields the empty-valued default
(`HOST=` or `INTERNAL_SECRET=`) rather than an omitted entry. -/
theorem claim_C10 (environ : List String) :
    (filterEnv environ).length = 2 ∧
    hostMatch ((filterEnv environ).getD 0 "") = true ∧
    secretMatch ((filterEnv environ).getD 1 "") = true ∧
    (environ.filter hostMatch = [] → (filterEnv environ).getD 0 "" = "HOST=") ∧
    (environ.filter secretMatch = [] →
      (filterEnv environ).getD 1 "" = "INTERNAL_SECRET=") := by
  rw [filterEnv_eq]
  refine ⟨rfl, hostSlot_matches environ, secretSlot_matches environ, ?_, ?_⟩
  · intro hf
    show (environ.filter hostMatch).getLastD "HOST=" = "HOST="
    rw [hf]
    rfl
  · intro hf
    show (environ.filter secretMatch).getLastD "INTERNAL_SECRET=" =
      "INTERNAL_SECRET="
    rw [hf]
    rfl

/-- C10 witness: for the host environment `["PATH=/usr/bin"]` (no
allow-listed key present) both slots are the empty-valued defaults, in
the fixed order. -/
theorem claim_C10_witness :
    (filterEnv ["PATH=/usr/bin"]).length = 2 ∧
    hostMatch ((filterEnv ["PATH=/usr/bin"]).getD 0 "") = true ∧
    secretMatch ((filterEnv ["PATH=/usr/bin"]).getD 1 "") = true ∧
    (filterEnv ["PATH=/usr/bin"]).getD 0 "" = "HOST=" ∧
    (filterEnv ["PATH=/usr/bin"]).getD 1 "" = "INTERNAL_SECRET=" := by
  have h := claim_C10 ["PATH=/usr/bin"]
  exact ⟨h.1, h.2.1, h.2.2.1, h.2.2.2.1 (by decide), h.2.2.2.2 (by decide)⟩

end Krunclient
